import Mathlib

/-!
Shallow embedding of the asynchronous state-synchronization layer of the
Hello Universe frontend: the user/session store
(`src/frontend/src/store/useUserStore.ts`), the chain/wallet store
(`src/frontend/src/store/useChainStore.ts`) and the streaming AI-chat hook
(`src/frontend/src/hooks/useAI.ts`), together with theorems settling the
spec claims about them.

Modelling conventions:
* Zustand `set` with an object argument merges the given keys into the state;
  it is embedded as a Lean record update.
* JavaScript `Date` values and `generateId()` results are external effects and
  are modelled as `Nat` stamps passed in (or omitted when no claim depends on
  them).
* `fetch` and the wallet-provider handshake are external collaborators; their
  outcomes are passed to the embedded action as explicit arguments.
* JavaScript string primitives used by the stream consumer (`split('\n')`,
  `trim()`, `startsWith`, `slice`) are re-implemented over `List Char` so that
  every definition is kernel-computable.
-/

namespace HelloUniverse

/-! ## User store (`useUserStore.ts`) -/

/-- The theme enum of `UserPreferences` (`types/index.d.ts`). -/
inductive Theme where
  | light
  | dark
  | system
deriving DecidableEq

/-- The `UserPreferences` record of `types/index.d.ts`. -/
structure UserPreferences where
  theme : Theme
  notifications : Bool
  language : String
  newsletter : Bool
deriving DecidableEq

/-- The `User` record of `types/index.d.ts`; the `Date` fields `createdAt` and
`updatedAt` are modelled as `Nat` timestamps. -/
structure User where
  id : String
  email : String
  username : String
  walletAddress : Option String
  avatar : Option String
  createdAt : Nat
  updatedAt : Nat
  preferences : UserPreferences
deriving DecidableEq

/-- The `defaultPreferences` constant of `useUserStore.ts`. -/
def defaultPreferences : UserPreferences :=
  { theme := Theme.system
    notifications := true
    language := "en"
    newsletter := false }

/-- The user slice of `UserState` in `useUserStore.ts` (the data fields; the
actions are the functions below). -/
structure UserState where
  user : Option User
  isAuthenticated : Bool
  isLoading : Bool
  error : Option String
deriving DecidableEq

/-- The initial state of the user store. -/
def userInitialState : UserState :=
  { user := none
    isAuthenticated := false
    isLoading := false
    error := none }

/-- A `Partial<User>` argument to `updateUser`: every updatable field is
optional (`none` means the key is absent from the object). -/
structure UserUpdate where
  id : Option String := none
  email : Option String := none
  username : Option String := none
  walletAddress : Option (Option String) := none
  avatar : Option (Option String) := none
  createdAt : Option Nat := none
  preferences : Option UserPreferences := none
deriving DecidableEq

/-- A `Partial<UserPreferences>` argument to `updatePreferences`. -/
structure PreferencesUpdate where
  theme : Option Theme := none
  notifications : Option Bool := none
  language : Option String := none
  newsletter : Option Bool := none
deriving DecidableEq

/-- The spread `{ ...state.user, ...updates, updatedAt: new Date() }` in
`updateUser` (`useUserStore.ts` lines 66-71); `now` is the `new Date()`
stamp. -/
def applyUserUpdate (u : User) (updates : UserUpdate) (now : Nat) : User :=
  { id := updates.id.getD u.id
    email := updates.email.getD u.email
    username := updates.username.getD u.username
    walletAddress := updates.walletAddress.getD u.walletAddress
    avatar := updates.avatar.getD u.avatar
    createdAt := updates.createdAt.getD u.createdAt
    updatedAt := now
    preferences := updates.preferences.getD u.preferences }

/-- The spread `{ ...state.user.preferences, ...preferences }` in
`updatePreferences` (`useUserStore.ts` lines 74-83). -/
def applyPreferencesUpdate (p : UserPreferences) (preferences : PreferencesUpdate) :
    UserPreferences :=
  { theme := preferences.theme.getD p.theme
    notifications := preferences.notifications.getD p.notifications
    language := preferences.language.getD p.language
    newsletter := preferences.newsletter.getD p.newsletter }

/-- `setUser` (`useUserStore.ts` lines 58-63). -/
def setUser (s : UserState) (user : Option User) : UserState :=
  { s with
    user := user
    isAuthenticated := user.isSome
    error := none }

/-- `updateUser` (`useUserStore.ts` lines 66-71): merges the partial update
into the current user when one exists, otherwise keeps `user` null. -/
def updateUser (s : UserState) (updates : UserUpdate) (now : Nat) : UserState :=
  { s with user := s.user.map (fun u => applyUserUpdate u updates now) }

/-- `updatePreferences` (`useUserStore.ts` lines 74-83). -/
def updatePreferences (s : UserState) (preferences : PreferencesUpdate) (now : Nat) :
    UserState :=
  { s with
    user := s.user.map (fun u =>
      { u with
        preferences := applyPreferencesUpdate u.preferences preferences
        updatedAt := now }) }

/-- `setLoading` (`useUserStore.ts` line 86). -/
def setLoading (s : UserState) (isLoading : Bool) : UserState :=
  { s with isLoading := isLoading }

/-- `setError` (`useUserStore.ts` line 89). -/
def setError (s : UserState) (error : Option String) : UserState :=
  { s with error := error }

/-- `logout` (`useUserStore.ts` lines 92-97). -/
def logout (s : UserState) : UserState :=
  { s with
    user := none
    isAuthenticated := false
    error := none }

/-- The `user` object of a backend auth response body: unlike the store's
`User`, its `preferences` key may be absent (`user.preferences ||
defaultPreferences` in `login`). -/
structure BackendUser where
  id : String
  email : String
  username : String
  walletAddress : Option String
  avatar : Option String
  createdAt : Nat
  updatedAt : Nat
  preferences : Option UserPreferences
deriving DecidableEq

/-- Outcome of the `fetch` to `/api/auth/login` or `/api/auth/signup` as seen
by the store: `success u` is a response with `response.ok` carrying `{ user:
u }`; `failure msg` is a non-success HTTP status whose JSON body has the
optional `message` field `msg`. -/
inductive AuthResult where
  | success (user : BackendUser)
  | failure (message : Option String)
deriving DecidableEq

/-- JavaScript `x || fallback` for an optional string field: an absent field
(`undefined`) and the empty string are both falsy. -/
def jsOrElse (x : Option String) (fallback : String) : String :=
  match x with
  | some m => if m = "" then fallback else m
  | none => fallback

/-- The `set({ isLoading: true, error: null })` prologue shared by `login` and
`signup` (`useUserStore.ts` lines 101 and 136). -/
def authStart (s : UserState) : UserState :=
  { s with isLoading := true, error := none }

/-- The user object stored by `login` on success: the backend user with
`preferences: user.preferences || defaultPreferences` (`useUserStore.ts`
lines 117-124). -/
def loginUser (u : BackendUser) : User :=
  { id := u.id
    email := u.email
    username := u.username
    walletAddress := u.walletAddress
    avatar := u.avatar
    createdAt := u.createdAt
    updatedAt := u.updatedAt
    preferences := u.preferences.getD defaultPreferences }

/-- The user object stored by `signup` on success: the backend user with
`preferences: defaultPreferences` — the defaults are installed
unconditionally, even when the backend payload carries preferences
(`useUserStore.ts` lines 152-159). -/
def signupUser (u : BackendUser) : User :=
  { id := u.id
    email := u.email
    username := u.username
    walletAddress := u.walletAddress
    avatar := u.avatar
    createdAt := u.createdAt
    updatedAt := u.updatedAt
    preferences := defaultPreferences }

/-- `login` (`useUserStore.ts` lines 100-132). Returns the final state and
whether the action re-threw to its caller. On a non-success status the thrown
`Error(data.message || 'Login failed')` is caught and its message stored. -/
def login (s : UserState) (resp : AuthResult) : UserState × Bool :=
  let s1 := authStart s
  match resp with
  | AuthResult.success u =>
      ({ s1 with
          user := some (loginUser u)
          isAuthenticated := true
          isLoading := false }, false)
  | AuthResult.failure msg =>
      ({ s1 with
          error := some (jsOrElse msg "Login failed")
          isLoading := false }, true)

/-- `signup` (`useUserStore.ts` lines 135-167). Same shape as `login` except
that the stored user's preferences are always `defaultPreferences`. -/
def signup (s : UserState) (resp : AuthResult) : UserState × Bool :=
  let s1 := authStart s
  match resp with
  | AuthResult.success u =>
      ({ s1 with
          user := some (signupUser u)
          isAuthenticated := true
          isLoading := false }, false)
  | AuthResult.failure msg =>
      ({ s1 with
          error := some (jsOrElse msg "Signup failed")
          isLoading := false }, true)

/-! ## Chain store (`useChainStore.ts`) -/

/-- The `WalletStatus` union of `types/blockchain.types.ts`. -/
inductive WalletStatus where
  | disconnected
  | connecting
  | connected
  | error
deriving DecidableEq

/-- The `WalletState` record of `types/blockchain.types.ts`; `Address` is
modelled as `String`, `bigint` as `Int`, `SupportedChainId` as `Nat`. -/
structure WalletState where
  status : WalletStatus
  address : Option String
  chainId : Option Nat
  balance : Int
  ensName : Option String
  ensAvatar : Option String
deriving DecidableEq

/-- The nested `nativeCurrency` record of `ChainInfo`. -/
structure NativeCurrency where
  name : String
  symbol : String
  decimals : Nat
deriving DecidableEq

/-- The `ChainInfo` record of `types/blockchain.types.ts`. -/
structure ChainInfo where
  id : Nat
  name : String
  network : String
  nativeCurrency : NativeCurrency
  rpcUrls : List String
  blockExplorerUrls : List String
  iconUrl : Option String
deriving DecidableEq

/-- The `SUPPORTED_CHAINS` record of `useChainStore.ts` (lines 19-65), as a
lookup from chain id; indexing with a key outside the record yields `none`
(JavaScript `undefined`). -/
def SUPPORTED_CHAINS (chainId : Nat) : Option ChainInfo :=
  if chainId = 1 then
    some { id := 1, name := "Ethereum", network := "mainnet"
           nativeCurrency := { name := "Ether", symbol := "ETH", decimals := 18 }
           rpcUrls := ["https://eth.llamarpc.com"]
           blockExplorerUrls := ["https://etherscan.io"]
           iconUrl := some "/assets/logos/ethereum.svg" }
  else if chainId = 137 then
    some { id := 137, name := "Polygon", network := "polygon"
           nativeCurrency := { name := "MATIC", symbol := "MATIC", decimals := 18 }
           rpcUrls := ["https://polygon-rpc.com"]
           blockExplorerUrls := ["https://polygonscan.com"]
           iconUrl := some "/assets/logos/polygon.svg" }
  else if chainId = 42161 then
    some { id := 42161, name := "Arbitrum One", network := "arbitrum"
           nativeCurrency := { name := "Ether", symbol := "ETH", decimals := 18 }
           rpcUrls := ["https://arb1.arbitrum.io/rpc"]
           blockExplorerUrls := ["https://arbiscan.io"]
           iconUrl := some "/assets/logos/arbitrum.svg" }
  else if chainId = 10 then
    some { id := 10, name := "Optimism", network := "optimism"
           nativeCurrency := { name := "Ether", symbol := "ETH", decimals := 18 }
           rpcUrls := ["https://mainnet.optimism.io"]
           blockExplorerUrls := ["https://optimistic.etherscan.io"]
           iconUrl := some "/assets/logos/optimism.svg" }
  else if chainId = 8453 then
    some { id := 8453, name := "Base", network := "base"
           nativeCurrency := { name := "Ether", symbol := "ETH", decimals := 18 }
           rpcUrls := ["https://mainnet.base.org"]
           blockExplorerUrls := ["https://basescan.org"]
           iconUrl := some "/assets/logos/base.svg" }
  else none

/-- The `TransactionStatus` union of `types/blockchain.types.ts`. -/
inductive TransactionStatus where
  | pending
  | confirmed
  | failed
  | cancelled
deriving DecidableEq

/-- The `Transaction` record of `types/blockchain.types.ts`. The field `from`
is a Lean keyword and is rendered `fromAddr`; `to` is rendered `toAddr` to
match. -/
structure Transaction where
  hash : String
  fromAddr : String
  toAddr : String
  value : Int
  chainId : Nat
  status : TransactionStatus
  timestamp : Nat
  blockNumber : Option Nat := none
  gasUsed : Option Int := none
  gasPrice : Option Int := none
  data : Option String := none
  description : Option String := none
deriving DecidableEq

/-- A `Partial<Transaction>` argument to `updateTransaction`; `none` means the
key is absent from the update object. -/
structure TransactionUpdate where
  hash : Option String := none
  fromAddr : Option String := none
  toAddr : Option String := none
  value : Option Int := none
  chainId : Option Nat := none
  status : Option TransactionStatus := none
  timestamp : Option Nat := none
  blockNumber : Option (Option Nat) := none
  gasUsed : Option (Option Int) := none
  gasPrice : Option (Option Int) := none
  data : Option (Option String) := none
  description : Option (Option String) := none
deriving DecidableEq

/-- The spread `{ ...tx, ...updates }` in `updateTransaction`
(`useChainStore.ts` line 247). -/
def applyTxUpdate (tx : Transaction) (updates : TransactionUpdate) : Transaction :=
  { hash := updates.hash.getD tx.hash
    fromAddr := updates.fromAddr.getD tx.fromAddr
    toAddr := updates.toAddr.getD tx.toAddr
    value := updates.value.getD tx.value
    chainId := updates.chainId.getD tx.chainId
    status := updates.status.getD tx.status
    timestamp := updates.timestamp.getD tx.timestamp
    blockNumber := updates.blockNumber.getD tx.blockNumber
    gasUsed := updates.gasUsed.getD tx.gasUsed
    gasPrice := updates.gasPrice.getD tx.gasPrice
    data := updates.data.getD tx.data
    description := updates.description.getD tx.description }

/-- The data fields of `ChainState` in `useChainStore.ts`. -/
structure ChainState where
  wallet : WalletState
  currentChain : Option ChainInfo
  supportedChains : List ChainInfo
  transactions : List Transaction
  pendingTransactions : List Transaction
  isWalletModalOpen : Bool
  isChainSwitching : Bool
deriving DecidableEq

/-- The `initialWalletState` constant of `useChainStore.ts` (lines 113-120). -/
def initialWalletState : WalletState :=
  { status := WalletStatus.disconnected
    address := none
    chainId := none
    balance := 0
    ensName := none
    ensAvatar := none }

/-- The initial chain-store state (`useChainStore.ts` lines 129-136);
`supportedChains` is `Object.values(SUPPORTED_CHAINS)`. -/
def chainInitialState : ChainState :=
  { wallet := initialWalletState
    currentChain := none
    supportedChains :=
      [1, 137, 42161, 10, 8453].filterMap SUPPORTED_CHAINS
    transactions := []
    pendingTransactions := []
    isWalletModalOpen := false
    isChainSwitching := false }

/-- `setWalletStatus` (`useChainStore.ts` lines 139-142). -/
def setWalletStatus (s : ChainState) (status : WalletStatus) : ChainState :=
  { s with wallet := { s.wallet with status := status } }

/-- `setWalletAddress` (`useChainStore.ts` lines 144-147): sets the address
alone, leaving `status` untouched. -/
def setWalletAddress (s : ChainState) (address : Option String) : ChainState :=
  { s with wallet := { s.wallet with address := address } }

/-- `setChainId` (`useChainStore.ts` lines 149-153):
`chainId ? SUPPORTED_CHAINS[chainId] || null : null`. -/
def setChainId (s : ChainState) (chainId : Option Nat) : ChainState :=
  { s with
    wallet := { s.wallet with chainId := chainId }
    currentChain :=
      match chainId with
      | some c => SUPPORTED_CHAINS c
      | none => none }

/-- `setBalance` (`useChainStore.ts` lines 155-158). -/
def setBalance (s : ChainState) (balance : Int) : ChainState :=
  { s with wallet := { s.wallet with balance := balance } }

/-- `setEnsName` (`useChainStore.ts` lines 160-163). -/
def setEnsName (s : ChainState) (ensName : Option String) : ChainState :=
  { s with wallet := { s.wallet with ensName := ensName } }

/-- `setEnsAvatar` (`useChainStore.ts` lines 165-168). -/
def setEnsAvatar (s : ChainState) (ensAvatar : Option String) : ChainState :=
  { s with wallet := { s.wallet with ensAvatar := ensAvatar } }

/-- The first `set` of `connectWallet` (`useChainStore.ts` lines 172-174):
status becomes `connecting`, every other wallet field is kept. -/
def connectWalletStart (s : ChainState) : ChainState :=
  { s with wallet := { s.wallet with status := WalletStatus.connecting } }

/-- The success `set` of `connectWallet` (`useChainStore.ts` lines 186-196):
one atomic update to `connected` with the demo address, chain 1 and zero
balance, and `currentChain := SUPPORTED_CHAINS[1]`. -/
def connectWalletSuccess (s : ChainState) : ChainState :=
  { s with
    wallet := { s.wallet with
      status := WalletStatus.connected
      address := some "0x1234567890123456789012345678901234567890"
      chainId := some 1
      balance := 0 }
    currentChain := SUPPORTED_CHAINS 1 }

/-- The catch branch of `connectWallet` (`useChainStore.ts` lines 197-202):
status becomes `error`, every other wallet field (including `address`) is
kept, and the error is re-thrown. -/
def connectWalletFail (s : ChainState) : ChainState :=
  { s with wallet := { s.wallet with status := WalletStatus.error } }

/-- `connectWallet` end to end (`useChainStore.ts` lines 171-203): the
external connector handshake either succeeds (`ok = true`) or rejects.
Returns the final state and whether the action re-threw. -/
def connectWallet (s : ChainState) (ok : Bool) : ChainState × Bool :=
  if ok then (connectWalletSuccess (connectWalletStart s), false)
  else (connectWalletFail (connectWalletStart s), true)

/-- `disconnectWallet` (`useChainStore.ts` lines 206-211): one `set` touching
only `wallet` and `currentChain`. -/
def disconnectWallet (s : ChainState) : ChainState :=
  { s with
    wallet := initialWalletState
    currentChain := none }

/-- The first `set` of `switchChain` (`useChainStore.ts` line 215). -/
def switchChainStart (s : ChainState) : ChainState :=
  { s with isChainSwitching := true }

/-- The success `set` of `switchChain` (`useChainStore.ts` lines 223-227):
`currentChain := SUPPORTED_CHAINS[chainId]`. -/
def switchChainSuccess (s : ChainState) (chainId : Nat) : ChainState :=
  { s with
    wallet := { s.wallet with chainId := some chainId }
    currentChain := SUPPORTED_CHAINS chainId
    isChainSwitching := false }

/-- The catch branch of `switchChain` (`useChainStore.ts` lines 228-231):
only the flag is cleared; the error is re-thrown. -/
def switchChainFail (s : ChainState) : ChainState :=
  { s with isChainSwitching := false }

/-- `switchChain` end to end (`useChainStore.ts` lines 214-232): the external
provider switch either succeeds (`ok = true`) or rejects. Returns the final
state and whether the action re-threw. -/
def switchChain (s : ChainState) (chainId : Nat) (ok : Bool) : ChainState × Bool :=
  if ok then (switchChainSuccess (switchChainStart s) chainId, false)
  else (switchChainFail (switchChainStart s), true)

/-- `addTransaction` (`useChainStore.ts` lines 235-242): prepends to the full
list, and to the pending list exactly when `tx.status === 'pending'`. -/
def addTransaction (s : ChainState) (tx : Transaction) : ChainState :=
  { s with
    transactions := tx :: s.transactions
    pendingTransactions :=
      if tx.status = TransactionStatus.pending then tx :: s.pendingTransactions
      else s.pendingTransactions }

/-- `updateTransaction` (`useChainStore.ts` lines 244-253): merges the update
into every transaction with the given hash; the pending list is filtered only
when `updates.status && updates.status !== 'pending'`, and is otherwise left
untouched. -/
def updateTransaction (s : ChainState) (hash : String) (updates : TransactionUpdate) :
    ChainState :=
  { s with
    transactions := s.transactions.map (fun tx =>
      if tx.hash = hash then applyTxUpdate tx updates else tx)
    pendingTransactions :=
      match updates.status with
      | some st =>
          if st ≠ TransactionStatus.pending then
            s.pendingTransactions.filter (fun tx => tx.hash ≠ hash)
          else s.pendingTransactions
      | none => s.pendingTransactions }

/-- `clearTransactions` (`useChainStore.ts` lines 255-259). -/
def clearTransactions (s : ChainState) : ChainState :=
  { s with transactions := [], pendingTransactions := [] }

/-- `setWalletModalOpen` (`useChainStore.ts` lines 262-263). -/
def setWalletModalOpen (s : ChainState) (isOpen : Bool) : ChainState :=
  { s with isWalletModalOpen := isOpen }

/-! ## JavaScript string primitives

Kernel-computable embeddings of the string operations used by the stream
consumer in `useAI.ts`. The whitespace class covers the characters that can
occur in this protocol (space, tab, CR, LF). -/

/-- Whitespace test for `String.prototype.trim`. -/
def isWsChar (c : Char) : Bool :=
  c == ' ' || c == '\t' || c == '\n' || c == '\r'

/-- JavaScript `s.trim()`. -/
def jsTrim (s : String) : String :=
  ⟨((s.data.dropWhile isWsChar).reverse.dropWhile isWsChar).reverse⟩

/-- Helper for `jsSplitNewline`: splits a character list at `'\n'`. -/
def splitNlAux : List Char → List Char → List String
  | [], acc => [⟨acc.reverse⟩]
  | c :: cs, acc =>
      if c = '\n' then ⟨acc.reverse⟩ :: splitNlAux cs []
      else splitNlAux cs (c :: acc)

/-- JavaScript `s.split('\n')` (always at least one piece). -/
def jsSplitNewline (s : String) : List String :=
  splitNlAux s.data []

/-- Prefix test on character lists (first argument is the candidate prefix). -/
def prefixOf : List Char → List Char → Bool
  | [], _ => true
  | _ :: _, [] => false
  | p :: ps, c :: cs => p == c && prefixOf ps cs

/-- JavaScript `s.startsWith(pre)`. -/
def jsStartsWith (s pre : String) : Bool :=
  prefixOf pre.data s.data

/-- JavaScript `s.slice(n)` for ASCII content: drop the first `n` characters. -/
def jsSlice (s : String) (n : Nat) : String :=
  ⟨s.data.drop n⟩

/-! ## A fragment of `JSON.parse`

The chunks of the chat protocol are flat JSON objects with string keys and
string values (`{"content":"..."}`, `{"error":"..."}`). `JSON.parse` is a
platform primitive; it is modelled here on exactly that fragment, written
compactly (no whitespace, no escape sequences). Input outside the fragment
parses to `none`, which the stream consumer treats as its raw-text
fallback. -/

/-- Reads the body of a string literal up to the closing quote; escape
sequences (backslash) are outside the fragment and fail. -/
def strLitAux : List Char → List Char → Option (String × List Char)
  | [], _ => none
  | c :: cs, acc =>
      if c = '"' then some (⟨acc.reverse⟩, cs)
      else if c = '\\' then none
      else strLitAux cs (c :: acc)

/-- Parses a leading JSON string literal `"..."`. -/
def parseStrLit : List Char → Option (String × List Char)
  | '"' :: cs => strLitAux cs []
  | _ => none

/-- Parses the member list of a flat object after the opening brace, up to and
including the closing brace; `fuel` bounds the recursion. -/
def membersAux : Nat → List Char → Option (List (String × String) × List Char)
  | 0, _ => none
  | fuel + 1, cs =>
      match parseStrLit cs with
      | none => none
      | some (k, cs1) =>
          match cs1 with
          | ':' :: cs2 =>
              match parseStrLit cs2 with
              | none => none
              | some (v, cs3) =>
                  match cs3 with
                  | ',' :: cs4 =>
                      match membersAux fuel cs4 with
                      | some (ms, rest) => some ((k, v) :: ms, rest)
                      | none => none
                  | '}' :: cs4 => some ([(k, v)], cs4)
                  | _ => none
          | _ => none

/-- Parses a whole compact flat string-object, requiring the input to be
consumed exactly. -/
def parseFlatObj (s : String) : Option (List (String × String)) :=
  match s.data with
  | '{' :: '}' :: [] => some []
  | '{' :: cs =>
      match membersAux (cs.length + 1) cs with
      | some (ms, []) => some ms
      | _ => none
  | _ => none

/-- Field access on a parsed object; duplicate keys resolve to the last
occurrence, as in `JSON.parse`. -/
def objField (ms : List (String × String)) (k : String) : Option String :=
  (ms.reverse.find? (fun p => p.1 == k)).map (fun p => p.2)

/-- The shape of a parsed chunk as the hook reads it (`parsed.content`,
`parsed.error`; the `done` field of `AIStreamChunk` is never read by the
hook). -/
structure AIStreamChunk where
  content : Option String
  error : Option String
deriving DecidableEq

/-- The modelled `JSON.parse(data)` followed by the two field reads. -/
def parseChunk (s : String) : Option AIStreamChunk :=
  (parseFlatObj s).map (fun ms => ⟨objField ms "content", objField ms "error"⟩)

/-- JavaScript truthiness of an optional string field: absent (`undefined`)
and `""` are falsy. -/
def truthy (x : Option String) : Bool :=
  match x with
  | some s => !(s == "")
  | none => false

/-! ## Streaming conversation (`useAI.ts`) -/

/-- The message roles of `AIMessage` (`types/index.d.ts`). -/
inductive Role where
  | user
  | assistant
  | system
deriving DecidableEq

/-- An `AIMessage` restricted to the fields the hook's logic depends on;
`id`, `timestamp` and `metadata` are generated effectfully (`generateId()`,
`new Date()`) and carry no claim-relevant information. -/
structure AIMessage where
  role : Role
  content : String
deriving DecidableEq

/-- Processing of one line of a decoded chunk (`useAI.ts` lines 116-138).
Returns the updated `fullResponse` accumulator. When a parsed chunk has a
truthy `error` field, the `throw new Error(parsed.error)` on line 131 is
raised inside the same `try` whose `catch` (line 133) handles `JSON.parse`
failures, so it is caught there and the raw `data` text is appended as
fallback — the loop then continues with the next line. -/
def processLine (acc : String) (line : String) : String :=
  if jsStartsWith line "data: " then
    let data := jsSlice line 6
    if data == "[DONE]" then acc
    else
      match parseChunk data with
      | some parsed =>
          let acc1 := if truthy parsed.content then acc ++ parsed.content.getD "" else acc
          if truthy parsed.error then acc1 ++ data else acc1
      | none => acc ++ data
  else acc

/-- Processing of one decoded read chunk (`useAI.ts` lines 113-139): split on
newlines, drop blank lines, feed each line to `processLine`. -/
def processReadChunk (acc : String) (chunk : String) : String :=
  ((jsSplitNewline chunk).filter (fun l => !(jsTrim l == ""))).foldl processLine acc

/-- The full `fullResponse` accumulated over a stream delivered as a list of
decoded read chunks (`useAI.ts` lines 106-140). -/
def runChunks (chunks : List String) : String :=
  chunks.foldl processReadChunk ""

/-- The conversation state of the `useAI` hook: the React state fields plus
`abortControllerRef`. Controllers are identified by `Nat` tokens; `nextToken`
supplies the fresh id of the next `new AbortController()`, and `aborted`
lists the tokens whose `abort()` has been called. -/
structure AIState where
  messages : List AIMessage
  isLoading : Bool
  isStreaming : Bool
  error : Option String
  currentResponse : String
  abortRef : Option Nat
  aborted : List Nat
  nextToken : Nat
deriving DecidableEq

/-- The initial hook state (`useAI.ts` lines 47-53). -/
def aiInitialState : AIState :=
  { messages := []
    isLoading := false
    isStreaming := false
    error := none
    currentResponse := ""
    abortRef := none
    aborted := []
    nextToken := 0 }

/-- The synchronous prefix of a (non-blank) `sendMessage` call, up to the
suspension at `fetch` (`useAI.ts` lines 59-92): clear the error, set
loading, append the trimmed user message, and install a fresh abort
controller. Line 73 assigns `abortControllerRef.current = new
AbortController()` without calling `abort()` on the controller it replaces,
so `aborted` is unchanged. The `fetch` issued at line 76 captures the signal
of the controller installed here, namely token `s.nextToken`. -/
def sendMessageStart (s : AIState) (content : String) : AIState :=
  { s with
    error := none
    isLoading := true
    messages := s.messages ++ [{ role := Role.user, content := jsTrim content }]
    abortRef := some s.nextToken
    nextToken := s.nextToken + 1 }

/-- Resumption of a `sendMessage` call whose `fetch` returned an OK streaming
response (`useAI.ts` lines 100-169), consuming the stream to completion.
`tok` is the token of the controller whose signal the request carries. If
that controller has been aborted, `reader.read()` rejects with an
`AbortError` and the catch (lines 159-161) stores `'Request cancelled'`
without appending a message; otherwise the loop accumulates `fullResponse`
and one assistant message is appended (lines 143-155). Either way the
`finally` (lines 165-168) clears the flags and nulls the controller ref. -/
def sendMessageResume (s : AIState) (tok : Nat) (chunks : List String) : AIState :=
  if tok ∈ s.aborted then
    { s with
      error := some "Request cancelled"
      isLoading := false
      isStreaming := false
      abortRef := none }
  else
    { s with
      messages := s.messages ++ [{ role := Role.assistant, content := runChunks chunks }]
      currentResponse := ""
      isLoading := false
      isStreaming := false
      abortRef := none }

/-- One complete `sendMessage` call with no interleaved activity (`useAI.ts`
lines 56-170): a blank message returns before touching any state (line 57);
otherwise the synchronous prefix runs and the stream is consumed. -/
def sendMessage (s : AIState) (content : String) (chunks : List String) : AIState :=
  if jsTrim content == "" then s
  else sendMessageResume (sendMessageStart s content) s.nextToken chunks

/-- `stopStreaming` (`useAI.ts` lines 180-185): aborts the current controller
when one is installed and nulls the ref. -/
def stopStreaming (s : AIState) : AIState :=
  match s.abortRef with
  | some tok => { s with aborted := tok :: s.aborted, abortRef := none }
  | none => s

/-- `clearMessages` (`useAI.ts` lines 173-177). -/
def clearMessages (s : AIState) : AIState :=
  { s with messages := [], error := none, currentResponse := "" }

/-- The event-loop interleaving of `sendMessage a` immediately followed by
`sendMessage b` (both non-blank), with both streams then completing: `a`'s
synchronous prefix runs and suspends at its `fetch` (signal token
`s.nextToken`); `b`'s synchronous prefix runs, replacing the controller ref
without aborting `a`'s controller; then each stream is consumed by its own
invocation, `a`'s first. -/
def twoSends (s : AIState) (a b : String) (chunksA chunksB : List String) : AIState :=
  let tokA := s.nextToken
  let s1 := sendMessageStart s a
  let tokB := s1.nextToken
  let s2 := sendMessageStart s1 b
  let s3 := sendMessageResume s2 tokA chunksA
  sendMessageResume s3 tokB chunksB

/-- Count of assistant messages in a log. -/
def assistantCount (ms : List AIMessage) : Nat :=
  (ms.filter (fun m => m.role == Role.assistant)).length

/-! ## Claims about the user store -/

/-- C9: when `user` is null, `updateUser` and `updatePreferences` are complete
no-ops for any partial update: `user` stays null and `isAuthenticated`,
`isLoading` and `error` are all unchanged; neither operation can create a
user. -/
theorem c9_null_user_updates_are_noops (s : UserState) (updates : UserUpdate)
    (preferences : PreferencesUpdate) (now now2 : Nat) (h : s.user = none) :
    updateUser s updates now = s ∧ updatePreferences s preferences now2 = s := by
  obtain ⟨u, auth, load, err⟩ := s
  simp only at h
  subst h
  exact ⟨rfl, rfl⟩

/-- Witness for C9 at a concrete logged-out state and concrete partials. -/
theorem c9_witness :
    updateUser userInitialState { username := some "bob" } 5 = userInitialState ∧
    updatePreferences userInitialState { theme := some Theme.dark } 7 = userInitialState :=
  c9_null_user_updates_are_noops userInitialState
    { username := some "bob" } { theme := some Theme.dark } 5 7 rfl

/-- C6: a `login` call answered with a non-success HTTP status ends with
`error` set to a non-empty message extracted from the response,
`isLoading = false`, and `user` unchanged. -/
theorem c6_login_failure_sets_error (s : UserState) (msg : Option String) :
    (login s (AuthResult.failure msg)).1.error = some (jsOrElse msg "Login failed") ∧
    jsOrElse msg "Login failed" ≠ "" ∧
    (login s (AuthResult.failure msg)).1.isLoading = false ∧
    (login s (AuthResult.failure msg)).1.user = s.user := by
  refine ⟨rfl, ?_, rfl, rfl⟩
  cases msg with
  | none => simp [jsOrElse]
  | some m =>
      by_cases hm : m = "" <;> simp [jsOrElse, hm]

/-- Witness for C6 at a concrete 401-style response carrying the message
`Invalid credentials`. -/
theorem c6_witness :
    (login userInitialState (AuthResult.failure (some "Invalid credentials"))).1.error
      = some (jsOrElse (some "Invalid credentials") "Login failed") ∧
    jsOrElse (some "Invalid credentials") "Login failed" ≠ "" ∧
    (login userInitialState (AuthResult.failure (some "Invalid credentials"))).1.isLoading
      = false ∧
    (login userInitialState (AuthResult.failure (some "Invalid credentials"))).1.user
      = userInitialState.user :=
  c6_login_failure_sets_error userInitialState (some "Invalid credentials")

/-- C4 counterexample: a successful signup whose backend payload carries
explicit preferences does not keep them — the store installs
`defaultPreferences` unconditionally. -/
theorem c4_counterexample :
    (signup userInitialState (AuthResult.success
        { id := "u1", email := "u@x.com", username := "bob"
          walletAddress := none, avatar := none, createdAt := 0, updatedAt := 0
          preferences := some { theme := Theme.dark, notifications := false
                                language := "fr", newsletter := true } })).1.user.map
        User.preferences
      ≠ some { theme := Theme.dark, notifications := false
               language := "fr", newsletter := true } ∧
    (signup userInitialState (AuthResult.success
        { id := "u1", email := "u@x.com", username := "bob"
          walletAddress := none, avatar := none, createdAt := 0, updatedAt := 0
          preferences := some { theme := Theme.dark, notifications := false
                                language := "fr", newsletter := true } })).1.user.map
        User.preferences
      = some defaultPreferences := by
  constructor <;> decide

/-- C4 (amended): on every successful signup response the store replaces
`user` wholesale with the backend-returned user but always installs
`defaultPreferences` — backend-supplied preferences are discarded, not kept —
and sets `isAuthenticated = true` and `isLoading = false`. -/
theorem c4_signup_replaces_user_with_default_preferences (s : UserState) (u : BackendUser) :
    (signup s (AuthResult.success u)).1.user = some (signupUser u) ∧
    (signupUser u).preferences = defaultPreferences ∧
    (signupUser u).username = u.username ∧
    (signup s (AuthResult.success u)).1.isAuthenticated = true ∧
    (signup s (AuthResult.success u)).1.isLoading = false :=
  ⟨rfl, rfl, rfl, rfl, rfl⟩

/-! ## Claims about the chain store -/

/-- C10: `disconnectWallet` resets only the wallet tuple (to
`initialWalletState`) and `currentChain` (to null); the transaction lists and
the UI flags survive unchanged. -/
theorem c10_disconnect_preserves_transactions (s : ChainState) :
    (disconnectWallet s).wallet = initialWalletState ∧
    (disconnectWallet s).currentChain = none ∧
    (disconnectWallet s).transactions = s.transactions ∧
    (disconnectWallet s).pendingTransactions = s.pendingTransactions ∧
    (disconnectWallet s).isWalletModalOpen = s.isWalletModalOpen ∧
    (disconnectWallet s).isChainSwitching = s.isChainSwitching ∧
    (disconnectWallet s).supportedChains = s.supportedChains :=
  ⟨rfl, rfl, rfl, rfl, rfl, rfl, rfl⟩

/-- C8: `switchChain` sets `isChainSwitching` at the start; on success it
updates `chainId` and `currentChain` and clears the flag without re-throwing;
on failure it clears the flag, re-throws, and leaves `chainId` and
`currentChain` at their pre-call values. -/
theorem c8_switch_chain_failure_keeps_chain (s : ChainState) (chainId : Nat) :
    (switchChainStart s).isChainSwitching = true ∧
    ((switchChain s chainId true).1.wallet.chainId = some chainId ∧
      (switchChain s chainId true).1.currentChain = SUPPORTED_CHAINS chainId ∧
      (switchChain s chainId true).1.isChainSwitching = false ∧
      (switchChain s chainId true).2 = false) ∧
    ((switchChain s chainId false).1.isChainSwitching = false ∧
      (switchChain s chainId false).2 = true ∧
      (switchChain s chainId false).1.wallet.chainId = s.wallet.chainId ∧
      (switchChain s chainId false).1.currentChain = s.currentChain) :=
  ⟨rfl, ⟨rfl, rfl, rfl, rfl⟩, rfl, rfl, rfl, rfl⟩

/-- The spec's wallet invariant: a wallet that is not connected has a null
address. -/
def walletInvariant (s : ChainState) : Prop :=
  s.wallet.status ≠ WalletStatus.connected → s.wallet.address = none

/-- C5 counterexample: one call of the public setter `setWalletAddress` on the
initial state yields a state that is disconnected yet has a non-null
address. -/
theorem c5_counterexample :
    (setWalletAddress chainInitialState (some "0xabc")).wallet.status ≠
      WalletStatus.connected ∧
    (setWalletAddress chainInitialState (some "0xabc")).wallet.address ≠ none := by
  constructor <;> decide

/-- Chain-store states reachable from the initial state through the async
wallet actions (with `connectWallet` invoked only from a non-connected
status, the guard stated in the spec), the transaction actions and the
UI/derived setters — excluding the raw `setWalletStatus` and
`setWalletAddress` setters. Intermediate states of `connectWallet` and
`switchChain` are included. -/
inductive ReachableGuarded : ChainState → Prop where
  | init : ReachableGuarded chainInitialState
  | connectStart {s : ChainState} (h : ReachableGuarded s)
      (hg : s.wallet.status ≠ WalletStatus.connected) :
      ReachableGuarded (connectWalletStart s)
  | connectFinish {s : ChainState} (h : ReachableGuarded s)
      (hg : s.wallet.status ≠ WalletStatus.connected) (ok : Bool) :
      ReachableGuarded (connectWallet s ok).1
  | disconnect {s : ChainState} (h : ReachableGuarded s) :
      ReachableGuarded (disconnectWallet s)
  | switchStart {s : ChainState} (h : ReachableGuarded s) :
      ReachableGuarded (switchChainStart s)
  | switchFinish {s : ChainState} (h : ReachableGuarded s) (chainId : Nat) (ok : Bool) :
      ReachableGuarded (switchChain s chainId ok).1
  | addTx {s : ChainState} (h : ReachableGuarded s) (tx : Transaction) :
      ReachableGuarded (addTransaction s tx)
  | updateTx {s : ChainState} (h : ReachableGuarded s) (hash : String)
      (updates : TransactionUpdate) :
      ReachableGuarded (updateTransaction s hash updates)
  | clearTx {s : ChainState} (h : ReachableGuarded s) :
      ReachableGuarded (clearTransactions s)
  | chainIdSet {s : ChainState} (h : ReachableGuarded s) (c : Option Nat) :
      ReachableGuarded (setChainId s c)
  | balanceSet {s : ChainState} (h : ReachableGuarded s) (b : Int) :
      ReachableGuarded (setBalance s b)
  | ensNameSet {s : ChainState} (h : ReachableGuarded s) (n : Option String) :
      ReachableGuarded (setEnsName s n)
  | ensAvatarSet {s : ChainState} (h : ReachableGuarded s) (a : Option String) :
      ReachableGuarded (setEnsAvatar s a)
  | modalSet {s : ChainState} (h : ReachableGuarded s) (b : Bool) :
      ReachableGuarded (setWalletModalOpen s b)

/-- C5 (amended): the invariant `status ≠ connected → address = null` holds
for every state reachable through the store's operations other than the raw
`setWalletStatus`/`setWalletAddress` setters, provided `connectWallet` is only
invoked from a non-connected status (the spec's own guard); the raw setters
can break it (see the counterexample). -/
theorem c5_wallet_invariant_without_raw_setters (s : ChainState)
    (h : ReachableGuarded s) : walletInvariant s := by
  induction h with
  | init => intro _; rfl
  | connectStart h hg ih => intro _; exact ih hg
  | connectFinish h hg ok ih =>
      cases ok with
      | true => intro hc; exact absurd rfl hc
      | false => intro _; exact ih hg
  | disconnect h ih => intro _; rfl
  | switchStart h ih => exact ih
  | switchFinish h chainId ok ih => cases ok with
      | true => exact ih
      | false => exact ih
  | addTx h tx ih => exact ih
  | updateTx h hash updates ih => exact ih
  | clearTx h ih => exact ih
  | chainIdSet h c ih => exact ih
  | balanceSet h b ih => exact ih
  | ensNameSet h n ih => exact ih
  | ensAvatarSet h a ih => exact ih
  | modalSet h b ih => exact ih

/-- Witness for C5 (amended): a concrete reachable state — connect from the
initial state, then disconnect — satisfies the invariant. -/
theorem c5_witness :
    walletInvariant (disconnectWallet (connectWallet chainInitialState true).1) :=
  c5_wallet_invariant_without_raw_setters _
    (ReachableGuarded.disconnect
      (ReachableGuarded.connectFinish ReachableGuarded.init (by decide) true))

/-- The spec's pending-view invariant: the pending list is exactly the
pending-status subset of the full list, element-wise. -/
def pendingInvariant (s : ChainState) : Prop :=
  s.pendingTransactions =
    s.transactions.filter (fun tx => tx.status = TransactionStatus.pending)

/-- A pending demo transaction used by the C2 counterexample and witness. -/
def c2tx : Transaction :=
  { hash := "0x1", fromAddr := "0xa", toAddr := "0xb", value := 1, chainId := 1
    status := TransactionStatus.pending, timestamp := 0 }

/-- C2 counterexample: the invariant holds after `addTransaction`, but an
`updateTransaction` that changes a non-status field of a pending transaction
(here `value`) updates the full list while leaving the stale object in the
pending list, so the two views diverge element-wise. -/
theorem c2_counterexample :
    pendingInvariant (addTransaction chainInitialState c2tx) ∧
    ¬ pendingInvariant
        (updateTransaction (addTransaction chainInitialState c2tx) "0x1"
          { value := some 2 }) := by
  constructor
  · unfold pendingInvariant
    decide
  · unfold pendingInvariant
    decide

/-- Mapping the merge-by-hash update over a list and keeping the pending
transactions is the same as dropping the updated hash from the pending
transactions, whenever the update carries a terminal (non-pending) status. -/
theorem filter_pending_map_update (txs : List Transaction) (hash : String)
    (updates : TransactionUpdate) (st : TransactionStatus)
    (hst : updates.status = some st) (hterm : st ≠ TransactionStatus.pending) :
    (txs.map (fun tx => if tx.hash = hash then applyTxUpdate tx updates else tx)).filter
        (fun tx => tx.status = TransactionStatus.pending)
      = (txs.filter (fun tx => tx.status = TransactionStatus.pending)).filter
          (fun tx => tx.hash ≠ hash) := by
  induction txs with
  | nil => rfl
  | cons tx txs ih =>
      simp only [List.map_cons, List.filter_cons]
      by_cases hh : tx.hash = hash
      · have hstat : (applyTxUpdate tx updates).status = st := by
          simp [applyTxUpdate, hst]
        by_cases hp : tx.status = TransactionStatus.pending
        · simp [hh, hstat, hterm, hp, ih]
        · simp [hh, hstat, hterm, hp, ih]
      · by_cases hp : tx.status = TransactionStatus.pending
        · simp [hh, hp, ih]
        · simp [hh, hp, ih]

/-- C2 (amended): starting from any state satisfying the pending-view
invariant, `addTransaction` preserves it unconditionally, and
`updateTransaction` preserves it whenever the update carries a terminal
(non-pending) status. An update that omits `status` (or sets it back to
`'pending'`) while modifying fields of a pending transaction can break the
invariant (see the counterexample). -/
theorem c2_pending_view_preservation (s : ChainState) (hinv : pendingInvariant s) :
    (∀ tx, pendingInvariant (addTransaction s tx)) ∧
    (∀ hash updates st, updates.status = some st → st ≠ TransactionStatus.pending →
      pendingInvariant (updateTransaction s hash updates)) := by
  constructor
  · intro tx
    unfold pendingInvariant at hinv ⊢
    simp only [addTransaction, List.filter_cons]
    by_cases hp : tx.status = TransactionStatus.pending
    · simp [hp, hinv]
    · simp [hp, hinv]
  · intro hash updates st hst hterm
    unfold pendingInvariant at hinv ⊢
    simp only [updateTransaction, hst]
    rw [filter_pending_map_update s.transactions hash updates st hst hterm]
    simp [hterm, hinv]

/-- Witness for C2 (amended): from the initial state, adding a pending
transaction and separately applying a confirmed-status update both keep the
invariant. -/
theorem c2_witness :
    pendingInvariant (addTransaction chainInitialState c2tx) ∧
    pendingInvariant
      (updateTransaction chainInitialState "0x1"
        { status := some TransactionStatus.confirmed }) :=
  ⟨(c2_pending_view_preservation chainInitialState rfl).1 c2tx,
   (c2_pending_view_preservation chainInitialState rfl).2 "0x1"
     { status := some TransactionStatus.confirmed } TransactionStatus.confirmed rfl
     (by decide)⟩

/-! ## Claims about the streaming conversation -/

/-- C3: evaluation at the failing input. A structured chunk that parses
successfully and carries an error field does not abandon the stream: the
`throw new Error(parsed.error)` is caught by the enclosing JSON-fallback
`catch`, which appends the raw chunk text; consumption continues (the later
`"x"` content still accumulates), no error state is surfaced, and an
assistant message containing the raw error JSON is appended. -/
theorem c3_error_chunk_swallowed :
    processLine "" "data: \x7b\"error\":\"boom\"\x7d" = "\x7b\"error\":\"boom\"\x7d" ∧
    (sendMessage aiInitialState "hi"
        ["data: \x7b\"error\":\"boom\"\x7d\ndata: \x7b\"content\":\"x\"\x7d\ndata: [DONE]\n"]).error
      = none ∧
    (sendMessage aiInitialState "hi"
        ["data: \x7b\"error\":\"boom\"\x7d\ndata: \x7b\"content\":\"x\"\x7d\ndata: [DONE]\n"]).messages
      = [{ role := Role.user, content := "hi" },
         { role := Role.assistant, content := "\x7b\"error\":\"boom\"\x7dx" }] := by
  refine ⟨?_, ?_, ?_⟩ <;> decide

/-- Stream delivering one content token `"A"` for the C1 scenario. -/
def c1streamA : List String := ["data: \x7b\"content\":\"A\"\x7d\ndata: [DONE]\n"]

/-- Stream delivering one content token `"B"` for the C1 scenario. -/
def c1streamB : List String := ["data: \x7b\"content\":\"B\"\x7d\ndata: [DONE]\n"]

/-- C1 counterexample: `sendMessage("a")` immediately followed by
`sendMessage("b")` appends two assistant messages — the stream for `"a"` is
not cancelled and produces its own assistant message — refuting the
exactly-one-assistant-message single-flight claim. -/
theorem c1_counterexample :
    (twoSends aiInitialState "a" "b" c1streamA c1streamB).messages =
      [{ role := Role.user, content := "a" }, { role := Role.user, content := "b" },
       { role := Role.assistant, content := "A" },
       { role := Role.assistant, content := "B" }] ∧
    assistantCount (twoSends aiInitialState "a" "b" c1streamA c1streamB).messages ≠ 1 := by
  constructor <;> decide

/-- C1 (amended): a new `sendMessage` call replaces the conversation's abort
controller without aborting the one it replaces, so a superseding call does
not cancel the in-flight one: after `sendMessage(a)` immediately followed by
`sendMessage(b)` (both non-blank, both streams completing), both turns append
their assistant messages — two in total. Cancellation happens only through an
explicit abort of the installed controller (`stopStreaming`), in which case
the resumed call appends no message. -/
theorem c1_superseding_send_does_not_cancel (s : AIState) (a b : String)
    (chunksA chunksB : List String)
    (ha : (jsTrim a == "") = false) (hb : (jsTrim b == "") = false)
    (hfA : s.nextToken ∉ s.aborted) (hfB : s.nextToken + 1 ∉ s.aborted) :
    (twoSends s a b chunksA chunksB).messages =
      s.messages ++
        [{ role := Role.user, content := jsTrim a },
         { role := Role.user, content := jsTrim b },
         { role := Role.assistant, content := runChunks chunksA },
         { role := Role.assistant, content := runChunks chunksB }] ∧
    assistantCount (twoSends s a b chunksA chunksB).messages =
      assistantCount s.messages + 2 ∧
    (∀ (t : AIState) (tok : Nat) (chunks : List String), t.abortRef = some tok →
      (sendMessageResume (stopStreaming t) tok chunks).messages = t.messages) := by
  have hmsgs : (twoSends s a b chunksA chunksB).messages =
      s.messages ++
        [{ role := Role.user, content := jsTrim a },
         { role := Role.user, content := jsTrim b },
         { role := Role.assistant, content := runChunks chunksA },
         { role := Role.assistant, content := runChunks chunksB }] := by
    simp [twoSends, sendMessageStart, sendMessageResume, hfA, hfB]
  refine ⟨hmsgs, ?_, ?_⟩
  · rw [hmsgs]
    have hu : (Role.user == Role.assistant) = false := rfl
    have hass : (Role.assistant == Role.assistant) = true := rfl
    simp [assistantCount, List.filter_append, hu, hass]
  · intro t tok chunks ht
    simp [stopStreaming, ht, sendMessageResume]

/-- Witness for C1 (amended) at the concrete two-send scenario and a concrete
cancelled resumption. -/
theorem c1_witness :
    (twoSends aiInitialState "a" "b" c1streamA c1streamB).messages =
      aiInitialState.messages ++
        [{ role := Role.user, content := jsTrim "a" },
         { role := Role.user, content := jsTrim "b" },
         { role := Role.assistant, content := runChunks c1streamA },
         { role := Role.assistant, content := runChunks c1streamB }] ∧
    (sendMessageResume (stopStreaming { aiInitialState with abortRef := some 0 }) 0
        []).messages =
      ({ aiInitialState with abortRef := some 0 } : AIState).messages :=
  ⟨(c1_superseding_send_does_not_cancel aiInitialState "a" "b" c1streamA c1streamB
      (by decide) (by decide) (by decide) (by decide)).1,
   (c1_superseding_send_does_not_cancel aiInitialState "a" "b" c1streamA c1streamB
      (by decide) (by decide) (by decide) (by decide)).2.2
     { aiInitialState with abortRef := some 0 } 0 [] rfl⟩

/-! ### Stream-protocol lemmas for C7 -/

/-- A string whose characters stay inside the modelled JSON fragment: no
quote, no backslash, no newline. -/
def jsonPlain (s : String) : Prop :=
  ∀ ch ∈ s.data, ch ≠ '"' ∧ ch ≠ '\\' ∧ ch ≠ '\n'

instance jsonPlainDecidable (s : String) : Decidable (jsonPlain s) :=
  inferInstanceAs (Decidable (∀ ch ∈ s.data, ch ≠ '"' ∧ ch ≠ '\\' ∧ ch ≠ '\n'))

/-- The JSON payload of a content chunk, `{"content":"<c>"}`. -/
def contentPayload (c : String) : String :=
  "\x7b\"content\":\"" ++ c ++ "\"\x7d"

/-- One protocol line carrying a content chunk. -/
def contentLine (c : String) : String :=
  "data: " ++ contentPayload c

/-- The on-the-wire stream for a list of content tokens: one `data:` line per
token, newline-terminated, closed by the `data: [DONE]` sentinel line. -/
def contentStream : List String → String
  | [] => "data: [DONE]\n"
  | c :: cs => contentLine c ++ "\n" ++ contentStream cs

theorem prefixOf_append (p rest : List Char) : prefixOf p (p ++ rest) = true := by
  induction p with
  | nil => rfl
  | cons c cs ih => simp [prefixOf, ih]

theorem jsStartsWith_data_marker (d : String) :
    jsStartsWith ("data: " ++ d) "data: " = true := by
  unfold jsStartsWith
  rw [String.data_append]
  exact prefixOf_append _ _

theorem jsSlice_data_marker (d : String) : jsSlice ("data: " ++ d) 6 = d := by
  unfold jsSlice
  rw [String.data_append, show (6 : Nat) = ("data: ".data).length from rfl,
    List.drop_left]

theorem strLitAux_append (l rest acc : List Char)
    (h : ∀ ch ∈ l, ch ≠ '"' ∧ ch ≠ '\\') :
    strLitAux (l ++ '"' :: rest) acc = some (⟨acc.reverse ++ l⟩, rest) := by
  induction l generalizing acc with
  | nil => simp [strLitAux]
  | cons ch l ih =>
      obtain ⟨h1, h2⟩ := h ch (List.mem_cons_self ch l)
      rw [List.cons_append]
      rw [show strLitAux (ch :: (l ++ '"' :: rest)) acc
            = strLitAux (l ++ '"' :: rest) (ch :: acc) from by
          simp [strLitAux, h1, h2]]
      rw [ih (ch :: acc) (fun x hx => h x (List.mem_cons_of_mem ch hx))]
      simp

/-- Parsing the member region `"k":"v"}` of a single-member flat object. -/
theorem membersAux_single (k v : String) (fuel : Nat)
    (hk : ∀ ch ∈ k.data, ch ≠ '"' ∧ ch ≠ '\\')
    (hv : ∀ ch ∈ v.data, ch ≠ '"' ∧ ch ≠ '\\') :
    membersAux (fuel + 1)
        ('"' :: (k.data ++ '"' :: ':' :: '"' :: (v.data ++ '"' :: ['}'])))
      = some ([(k, v)], []) := by
  have h1 : parseStrLit ('"' :: (k.data ++ '"' :: ':' :: '"' :: (v.data ++ '"' :: ['}'])))
      = some (k, ':' :: '"' :: (v.data ++ '"' :: ['}'])) := by
    rw [parseStrLit, strLitAux_append _ _ _ hk]
    rfl
  have h2 : parseStrLit ('"' :: (v.data ++ '"' :: ['}'])) = some (v, ['}']) := by
    rw [parseStrLit, strLitAux_append _ _ _ hv]
    rfl
  simp only [membersAux, h1, h2]

/-- Unfolding of `parseFlatObj` on an object that opens with a key. -/
theorem parseFlatObj_cons_quote (rest : List Char) :
    parseFlatObj ⟨'{' :: '"' :: rest⟩
      = match membersAux (('"' :: rest).length + 1) ('"' :: rest) with
        | some (ms, []) => some ms
        | _ => none := rfl

/-- Parsing the full payload of a content chunk. -/
theorem parseChunk_contentPayload (c : String)
    (h : ∀ ch ∈ c.data, ch ≠ '"' ∧ ch ≠ '\\') :
    parseChunk (contentPayload c) = some ⟨some c, none⟩ := by
  have hdata : (contentPayload c).data
      = '{' :: '"' :: ("content".data ++ '"' :: ':' :: '"' :: (c.data ++ '"' :: ['}'])) := by
    show ("\x7b\"content\":\"" ++ c ++ "\"\x7d").data = _
    rw [String.data_append, String.data_append]
    rfl
  have hcontent : ∀ ch ∈ "content".data, ch ≠ '"' ∧ ch ≠ '\\' := by decide
  have hm := membersAux_single "content" c
    ('"' :: ("content".data ++ '"' :: ':' :: '"' :: (c.data ++ '"' :: ['}']))).length hcontent h
  unfold parseChunk
  rw [show contentPayload c
        = ⟨'{' :: '"' :: ("content".data ++ '"' :: ':' :: '"' :: (c.data ++ '"' :: ['}']))⟩ from
      String.ext hdata]
  rw [parseFlatObj_cons_quote, hm]
  rfl

theorem newline_not_mem_contentLine (c : String) (h : jsonPlain c) :
    '\n' ∉ (contentLine c).data := by
  intro hmem
  have hdata : (contentLine c).data
      = "data: \x7b\"content\":\"".data ++ c.data ++ "\"\x7d".data := by
    show ("data: " ++ ("\x7b\"content\":\"" ++ c ++ "\"\x7d")).data = _
    rw [String.data_append, String.data_append, String.data_append]
    rfl
  rw [hdata] at hmem
  rcases List.mem_append.mp hmem with hmem1 | hmem2
  · rcases List.mem_append.mp hmem1 with hfix | hc
    · revert hfix; decide
    · exact (h '\n' hc).2.2 rfl
  · revert hmem2; decide

theorem splitNlAux_append (l rest acc : List Char) (h : '\n' ∉ l) :
    splitNlAux (l ++ '\n' :: rest) acc
      = String.mk (acc.reverse ++ l) :: splitNlAux rest [] := by
  induction l generalizing acc with
  | nil => simp [splitNlAux]
  | cons c cs ih =>
      have hc : c ≠ '\n' := fun hh => h (hh ▸ List.mem_cons_self c cs)
      rw [List.cons_append]
      rw [show splitNlAux (c :: (cs ++ '\n' :: rest)) acc
            = splitNlAux (cs ++ '\n' :: rest) (c :: acc) from by
          simp [splitNlAux, hc]]
      rw [ih (c :: acc) (fun hm => h (List.mem_cons_of_mem c hm))]
      simp

theorem jsSplitNewline_contentStream (contents : List String)
    (h : ∀ c ∈ contents, jsonPlain c) :
    jsSplitNewline (contentStream contents)
      = contents.map contentLine ++ ["data: [DONE]", ""] := by
  induction contents with
  | nil => rfl
  | cons c cs ih =>
      have hdata : (contentStream (c :: cs)).data
          = (contentLine c).data ++ '\n' :: (contentStream cs).data := by
        show (contentLine c ++ "\n" ++ contentStream cs).data = _
        rw [String.data_append, String.data_append, List.append_assoc]
        rfl
      unfold jsSplitNewline
      rw [hdata,
        splitNlAux_append _ _ _ (newline_not_mem_contentLine c (h c (List.mem_cons_self c cs)))]
      rw [show splitNlAux (contentStream cs).data [] = jsSplitNewline (contentStream cs) from rfl,
        ih (fun x hx => h x (List.mem_cons_of_mem c hx))]
      simp

theorem dropWhile_ws_append_singleton (xs : List Char) (c : Char)
    (hc : isWsChar c = false) : (xs ++ [c]).dropWhile isWsChar ≠ [] := by
  induction xs with
  | nil => simp [List.dropWhile_cons, hc]
  | cons x xs ih =>
      by_cases hx : isWsChar x
      · simpa [List.dropWhile_cons, hx] using ih
      · simp [List.dropWhile_cons, hx]

theorem jsTrim_cons_not_blank (c : Char) (l : List Char) (hc : isWsChar c = false) :
    (jsTrim ⟨c :: l⟩ == "") = false := by
  have h1 : (c :: l).dropWhile isWsChar = c :: l := by
    simp [List.dropWhile_cons, hc]
  have h2 : (c :: l).reverse.dropWhile isWsChar ≠ [] := by
    rw [List.reverse_cons]
    exact dropWhile_ws_append_singleton l.reverse c hc
  have h3 : jsTrim ⟨c :: l⟩ = ⟨((c :: l).reverse.dropWhile isWsChar).reverse⟩ := by
    unfold jsTrim
    rw [show (String.mk (c :: l)).data = c :: l from rfl, h1]
  rw [h3]
  simp only [beq_eq_false_iff_ne, ne_eq]
  intro heq
  apply h2
  have hd := congrArg String.data heq
  simpa using hd

theorem contentLine_not_blank (c : String) : (jsTrim (contentLine c) == "") = false := by
  have hdata : (contentLine c).data
      = 'd' :: ("ata: \x7b\"content\":\"".data ++ c.data ++ "\"\x7d".data) := by
    show ("data: " ++ ("\x7b\"content\":\"" ++ c ++ "\"\x7d")).data = _
    rw [String.data_append, String.data_append]
    rfl
  rw [show contentLine c
        = ⟨'d' :: ("ata: \x7b\"content\":\"".data ++ c.data ++ "\"\x7d".data)⟩ from
      String.ext hdata]
  exact jsTrim_cons_not_blank 'd' _ rfl

/-- The payload of a content line is never the `[DONE]` sentinel. -/
theorem contentPayload_ne_done (c : String) : (contentPayload c == "[DONE]") = false := by
  simp only [beq_eq_false_iff_ne, ne_eq]
  intro heq
  have hd := congrArg String.data heq
  rw [show (contentPayload c).data
        = '{' :: ("\"content\":\"".data ++ c.data ++ "\"\x7d".data) from by
      show ("\x7b\"content\":\"" ++ c ++ "\"\x7d").data = _
      rw [String.data_append, String.data_append]
      rfl] at hd
  simp at hd

/-- A content line accumulates exactly its content token (an empty token
contributes nothing, which is the same as appending it). -/
theorem processLine_contentLine (acc c : String) (h : jsonPlain c) :
    processLine acc (contentLine c) = acc ++ c := by
  have hplain : ∀ ch ∈ c.data, ch ≠ '"' ∧ ch ≠ '\\' :=
    fun ch hch => ⟨(h ch hch).1, (h ch hch).2.1⟩
  simp only [processLine, contentLine, jsStartsWith_data_marker, jsSlice_data_marker,
    contentPayload_ne_done, parseChunk_contentPayload c hplain, if_true,
    Bool.false_eq_true, if_false]
  by_cases hc : c = ""
  · subst hc
    simp [truthy]
  · have ht : truthy (some c) = true := by
      simp [truthy, hc]
    simp [ht, truthy]
    exact fun h0 => absurd h0 hc

theorem processLine_done (acc : String) : processLine acc "data: [DONE]" = acc := rfl

theorem foldl_string_append (l : List String) (a : String) :
    l.foldl (fun r s => r ++ s) a = a ++ String.join l := by
  induction l generalizing a with
  | nil => simp [String.join]
  | cons x xs ih =>
      rw [List.foldl_cons, ih]
      conv_rhs => rw [String.join, List.foldl_cons, ih]
      simp [String.append_assoc]

theorem join_cons (c : String) (cs : List String) :
    String.join (c :: cs) = c ++ String.join cs := by
  rw [String.join, List.foldl_cons, foldl_string_append]
  simp

theorem foldl_processLine_contentLines (contents : List String) (acc : String)
    (h : ∀ c ∈ contents, jsonPlain c) :
    (contents.map contentLine).foldl processLine acc = acc ++ String.join contents := by
  induction contents generalizing acc with
  | nil => simp [String.join]
  | cons c cs ih =>
      rw [List.map_cons, List.foldl_cons,
        processLine_contentLine acc c (h c (List.mem_cons_self c cs)),
        ih (acc ++ c) (fun x hx => h x (List.mem_cons_of_mem c hx)),
        join_cons, String.append_assoc]

/-- Consuming a stream consisting of content lines followed by the sentinel
accumulates exactly the concatenation of the content tokens. -/
theorem runChunks_contentStream (contents : List String)
    (h : ∀ c ∈ contents, jsonPlain c) :
    runChunks [contentStream contents] = String.join contents := by
  unfold runChunks processReadChunk
  rw [List.foldl_cons, List.foldl_nil, jsSplitNewline_contentStream contents h]
  have hfilter :
      (contents.map contentLine ++ ["data: [DONE]", ""]).filter
          (fun l => !(jsTrim l == ""))
        = contents.map contentLine ++ ["data: [DONE]"] := by
    rw [List.filter_append]
    congr 1
    exact List.filter_eq_self.mpr (fun l hl => by
      obtain ⟨c, _, hc⟩ := List.mem_map.mp hl
      rw [← hc, contentLine_not_blank]
      rfl)
  rw [hfilter, List.foldl_append, foldl_processLine_contentLines contents "" h]
  simp [processLine_done]

/-- C7: a stream whose lines are `data: `-prefixed content chunks closed by
the `data: [DONE]` sentinel makes `sendMessage` append exactly one assistant
message whose content is the concatenation of the chunks' content fields in
arrival order; a line without the `data: ` marker carries no payload; and a
`data: ` line that fails to parse is accumulated as raw fallback text rather
than treated as an error. -/
theorem c7_stream_concatenation :
    (∀ (s : AIState) (content : String) (contents : List String),
        (jsTrim content == "") = false →
        s.nextToken ∉ s.aborted →
        (∀ c ∈ contents, jsonPlain c) →
        (sendMessage s content [contentStream contents]).messages =
          s.messages ++
            [{ role := Role.user, content := jsTrim content },
             { role := Role.assistant, content := String.join contents }]) ∧
    (∀ acc line : String, jsStartsWith line "data: " = false →
        processLine acc line = acc) ∧
    (∀ acc d : String, parseChunk d = none → (d == "[DONE]") = false →
        processLine acc ("data: " ++ d) = acc ++ d) := by
  refine ⟨?_, ?_, ?_⟩
  · intro s content contents hblank hfresh hplain
    simp only [sendMessage, hblank, Bool.false_eq_true, if_false, sendMessageStart,
      sendMessageResume, runChunks_contentStream contents hplain, hfresh, if_false,
      List.append_assoc, List.cons_append, List.nil_append]
  · intro acc line h
    simp [processLine, h]
  · intro acc d hparse hdone
    simp only [processLine, jsStartsWith_data_marker, jsSlice_data_marker, hdone,
      Bool.false_eq_true, if_false, hparse, eq_self_iff_true, if_true]

/-- Witness for C7 at the spec's concrete scenario: the two-token stream
`He`, `llo` produces the single assistant message `Hello`, a non-marker line
is ignored, and an unparsable payload falls back to raw text. -/
theorem c7_witness :
    (sendMessage aiInitialState "hi" [contentStream ["He", "llo"]]).messages =
      [{ role := Role.user, content := "hi" },
       { role := Role.assistant, content := "Hello" }] ∧
    processLine "x" "event: y" = "x" ∧
    processLine "" ("data: " ++ "oops") = "" ++ "oops" := by
  refine ⟨?_, ?_, ?_⟩
  · have h := c7_stream_concatenation.1 aiInitialState "hi" ["He", "llo"]
      (by decide) (by decide) (by decide)
    exact h.trans (by decide)
  · exact c7_stream_concatenation.2.1 "x" "event: y" (by decide)
  · exact c7_stream_concatenation.2.2 "" "oops" (by decide) (by decide)

end HelloUniverse
